import Mathlib

/-
Verification of the federated-learning worker runtime (fedn client).

The definitions below are a shallow embedding of the Python sources
`fedn/fedn/network/clients/client.py` and `sdk/fedn/discovery/connect.py`.
Effectful steps (gRPC calls, file I/O, subprocess execution) are modelled
as explicit `Except String` oracles passed in an environment record; byte
buffers are `List Nat`; machine integers are `Nat`/`Int`.
-/

namespace Fedn

/-- CHUNK_SIZE constant, client.py line 29: 1024 * 1024 bytes (1 MiB). -/
def CHUNK_SIZE : Nat := 1024 * 1024

/-- Statuses of a model transfer frame (fedn.ModelStatus). -/
inductive ModelStatus where
  | OK : ModelStatus
  | IN_PROGRESS : ModelStatus
  | FAILED : ModelStatus
deriving DecidableEq, Repr

/-- Frame of the model transfer protocol (fedn.ModelRequest / ModelResponse):
an id, a status, and a chunk of data bytes. -/
structure ModelRequestMsg where
  id : String
  status : ModelStatus
  data : List Nat
deriving DecidableEq, Repr

/-- The `upload_request_generator` inner function of `Client.set_model`
(client.py lines 368-387): repeatedly read up to CHUNK_SIZE bytes; a
non-empty read yields an IN_PROGRESS frame carrying the bytes; an empty
read yields a terminal OK frame with no data and stops. -/
def upload_request_generator (id : String) (mdl : List Nat) : List ModelRequestMsg :=
  if h : mdl = [] then
    [{ id := id, status := ModelStatus.OK, data := [] }]
  else
    { id := id, status := ModelStatus.IN_PROGRESS, data := mdl.take CHUNK_SIZE } ::
      upload_request_generator id (mdl.drop CHUNK_SIZE)
termination_by mdl.length
decreasing_by
  have h0 : 0 < mdl.length := List.length_pos.mpr h
  simp only [List.length_drop]
  have h1 : 0 < CHUNK_SIZE := by decide
  omega

/-- Loop body of `Client.get_model` (client.py lines 332-345): for each
received frame, append its data to the accumulator while IN_PROGRESS,
return the accumulator on OK, return failure (None) on FAILED; if the
stream ends without a terminal frame, return the accumulator. -/
def get_model_loop (parts : List ModelRequestMsg) (acc : List Nat) : Option (List Nat) :=
  match parts with
  | [] => some acc
  | part :: rest =>
    let acc2 := if part.status = ModelStatus.IN_PROGRESS then acc ++ part.data else acc
    if part.status = ModelStatus.OK then some acc2
    else if part.status = ModelStatus.FAILED then none
    else get_model_loop rest acc2

/-- `Client.get_model` (client.py lines 323-345) over a stream of frames. -/
def get_model (parts : List ModelRequestMsg) : Option (List Nat) :=
  get_model_loop parts []

/-- Client pipeline state (fedn.network.clients.state.ClientState). -/
inductive ClientState where
  | idle : ClientState
  | training : ClientState
  | validating : ClientState
deriving DecidableEq, Repr

/-- Oracles for the effectful steps of `_process_validation_request`
(client.py lines 516-558), in the order the code performs them inside
its try block. -/
structure ValidationEnv where
  fetch_model : Except String (List Nat)
  write_input : Except String Unit
  run_command : Except String Unit
  read_metrics : Except String (List (String × String))
  unlink_files : Except String Unit

/-- Body of the try block of `_process_validation_request` (client.py
lines 535-549): get_model, write temp input, dispatcher run, read the
metrics file, unlink temp files; the first raised exception aborts. -/
def validateAttempt (env : ValidationEnv) : Except String (List (String × String)) :=
  match env.fetch_model with
  | Except.error e => Except.error e
  | Except.ok _ =>
    match env.write_input with
    | Except.error e => Except.error e
    | Except.ok _ =>
      match env.run_command with
      | Except.error e => Except.error e
      | Except.ok _ =>
        match env.read_metrics with
        | Except.error e => Except.error e
        | Except.ok validation =>
          match env.unlink_files with
          | Except.error e => Except.error e
          | Except.ok _ => Except.ok validation

/-- `_process_validation_request` (client.py lines 516-558). On success it
sets state to idle and returns the metrics. On exception the handler
(lines 551-555) prints and then executes a bare `raise`, so the exception
propagates and the trailing `self.state = ClientState.idle; return None`
is dead code: the state remains `validating` and the result is an error. -/
def process_validation_request (env : ValidationEnv) :
    ClientState × Except String (Option (List (String × String))) :=
  match validateAttempt env with
  | Except.ok validation => (ClientState.idle, Except.ok (some validation))
  | Except.error e => (ClientState.validating, Except.error e)

/-- Observable outcome of the `validate` branch of `process_request`. -/
structure ValidateOutcome where
  state : ClientState
  warning_emitted : Bool
  audit_emitted : Bool
  published_validation : Bool
deriving DecidableEq, Repr

/-- The `validate` branch of `process_request` (client.py lines 603-636).
Only `queue.Empty` is caught by the loop, so an exception raised by
`_process_validation_request` propagates out of the task loop, which is
modelled by the `Except.error` result. -/
def process_request_validate (env : ValidationEnv) : Except String ValidateOutcome :=
  match process_validation_request env with
  | (_, Except.error e) => Except.error e
  | (_, Except.ok (some _m)) =>
      Except.ok { state := ClientState.idle, warning_emitted := false,
                  audit_emitted := true, published_validation := true }
  | (_, Except.ok none) =>
      Except.ok { state := ClientState.idle, warning_emitted := true,
                  audit_emitted := false, published_validation := false }

/-- Values appearing in the `meta` dictionary built by the training
pipeline: strings, timing numbers, and the sidecar metadata map. -/
inductive MetaVal where
  | str : String → MetaVal
  | num : Nat → MetaVal
  | map : List (String × String) → MetaVal
deriving DecidableEq, Repr

/-- Oracles for the effectful steps of `_process_training_request`
(client.py lines 458-514), in the order the code performs them inside its
try block, together with the recorded timings and the fresh model id. -/
structure TrainEnv where
  fetch_model : Except String (List Nat)
  fetch_time : Nat
  write_input : Except String Unit
  run_command : Except String Unit
  exec_time : Nat
  read_output : Except String (List Nat)
  upload_model : Except String Unit
  upload_time : Nat
  new_model_id : String
  read_metadata : Except String (List (String × String))
  unlink_files : Except String Unit

/-- Body of the try block of `_process_training_request` (client.py lines
471-504): get_model, write temp input, dispatcher run, read the output
artifact, upload it under a fresh id, read the sidecar metadata file,
unlink the temp files; the `meta` map accumulates the timings and the
sidecar metadata. The first raised exception aborts the block. -/
def trainAttempt (env : TrainEnv) : Except String (String × List (String × MetaVal)) :=
  match env.fetch_model with
  | Except.error e => Except.error e
  | Except.ok _ =>
    match env.write_input with
    | Except.error e => Except.error e
    | Except.ok _ =>
      match env.run_command with
      | Except.error e => Except.error e
      | Except.ok _ =>
        match env.read_output with
        | Except.error e => Except.error e
        | Except.ok _ =>
          match env.upload_model with
          | Except.error e => Except.error e
          | Except.ok _ =>
            match env.read_metadata with
            | Except.error e => Except.error e
            | Except.ok md =>
              match env.unlink_files with
              | Except.error e => Except.error e
              | Except.ok _ =>
                Except.ok (env.new_model_id,
                  [("fetch_model", MetaVal.num env.fetch_time),
                   ("exec_training", MetaVal.num env.exec_time),
                   ("upload_model", MetaVal.num env.upload_time),
                   ("training_metadata", MetaVal.map md)])

/-- `_process_training_request` (client.py lines 458-514): on success it
returns the fresh model id and the accumulated meta map; on any exception
the handler (lines 506-510) returns a null model id and the map
`[status: failed, error: message]`; either way state is set to idle at
exit (line 512). -/
def process_training_request (env : TrainEnv) :
    Option String × List (String × MetaVal) × ClientState :=
  match trainAttempt env with
  | Except.ok p => (some p.1, p.2, ClientState.idle)
  | Except.error e =>
    (none, [("status", MetaVal.str "failed"), ("error", MetaVal.str e)], ClientState.idle)

/-- Observable outcome of the `train` branch of `process_request`. -/
structure TrainOutcome where
  updated_model_id : Option String
  meta : List (String × MetaVal)
  published_update : Bool
  warning_emitted : Bool
  audit_emitted : Bool
  state : ClientState
deriving DecidableEq, Repr

/-- The `train` branch of `process_request` (client.py lines 569-601):
run `_process_training_request`, append `processing_time` and `config` to
the meta map, then either publish `SendModelUpdate` and an AUDIT status
(model id present) or emit a WARNING status and publish nothing (model id
null); state is set to idle at the end of the branch. -/
def process_request_train (env : TrainEnv) (processing_time : Nat) (request_config : String) :
    TrainOutcome :=
  let r := process_training_request env
  let meta2 := r.2.1 ++ [("processing_time", MetaVal.num processing_time),
                         ("config", MetaVal.str request_config)]
  match r.1 with
  | some mid =>
    { updated_model_id := some mid, meta := meta2, published_update := true,
      warning_emitted := false, audit_emitted := true, state := ClientState.idle }
  | none =>
    { updated_model_id := none, meta := meta2, published_update := false,
      warning_emitted := true, audit_emitted := false, state := ClientState.idle }

/-- Decides whether an Except value is an error (a raised exception). -/
def isErr {α : Type} : Except String α → Bool
  | Except.error _ => true
  | Except.ok _ => false

/-- Connection-level state of the client: the consecutive missed
heartbeat counter, the `_attached` flag, and the number of times
`channel.close()` has been invoked. -/
structure ConnState where
  missed_heartbeat : Nat
  attached : Bool
  close_count : Nat
deriving DecidableEq, Repr

/-- `Client._detach` (client.py lines 200-208): prints a notice when not
attached, then unconditionally sets `_attached = False` and calls
`_disconnect`, which calls `channel.close()`. -/
def detach_client (s : ConnState) : ConnState :=
  { s with attached := false, close_count := s.close_count + 1 }

/-- `Client._handle_combiner_failure` (client.py lines 640-644):
increment the missed-heartbeat counter; when it strictly exceeds the
configured `reconnect_after_missed_heartbeat` threshold, detach. -/
def handle_combiner_failure (threshold : Nat) (s : ConnState) : ConnState :=
  let s2 := { s with missed_heartbeat := s.missed_heartbeat + 1 }
  if s2.missed_heartbeat > threshold then detach_client s2 else s2

/-- One iteration of the `_send_heartbeat` loop (client.py lines 654-668):
a successful SendHeartbeat resets the counter to 0; a gRPC failure calls
`_handle_combiner_failure`. -/
def heartbeat_step (threshold : Nat) (success : Bool) (s : ConnState) : ConnState :=
  if success then { s with missed_heartbeat := 0 } else handle_combiner_failure threshold s

/-- Combiner assignment fields used by `_connect` (client.py 130-195). -/
structure CombinerConfig where
  host : String
  port : Nat
  fqdn : Option String
  certificate : Option String
deriving DecidableEq, Repr

/-- Client config fields used by `_connect`. -/
structure ClientConfig where
  secure : Bool
  token : Option String
deriving DecidableEq, Repr

/-- How the gRPC channel was constructed in `_connect`. -/
inductive ChannelKind where
  | secure_from_certificate : ChannelKind
  | secure_from_env : ChannelKind
  | secure_with_ca : ChannelKind
  | insecure : ChannelKind
deriving DecidableEq, Repr

/-- Result of channel construction in `_connect`. -/
structure ChannelSpec where
  host : String
  port : Nat
  secure : Bool
  kind : ChannelKind
  with_token : Bool
deriving DecidableEq, Repr

/-- Python truthiness of an optional string: None and the empty string
are falsy. -/
def py_truthy : Option String → Bool
  | none => false
  | some s => decide (s ≠ "")

/-- Channel construction in `Client._connect` (client.py lines 130-181):
when `fqdn` is not None the host becomes the fqdn and the port 443
(lines 142-145); then, first match wins: an assignment certificate gives
a secure channel (148-154); an environment root certificate gives a
secure channel (155-160); `config.secure` gives a secure channel with
token credentials when a token is configured (161-172); otherwise an
insecure channel is built, rewriting port 443 to 80 (173-179). -/
def connect_channel (cc : CombinerConfig) (cfg : ClientConfig)
    (env_root_cert : Option String) : ChannelSpec :=
  let host := match cc.fqdn with | some f => f | none => cc.host
  let port := match cc.fqdn with | some _ => 443 | none => cc.port
  if py_truthy cc.certificate then
    { host := host, port := port, secure := true,
      kind := ChannelKind.secure_from_certificate, with_token := false }
  else if py_truthy env_root_cert then
    { host := host, port := port, secure := true,
      kind := ChannelKind.secure_from_env, with_token := false }
  else if cfg.secure then
    { host := host, port := port, secure := true,
      kind := ChannelKind.secure_with_ca, with_token := py_truthy cfg.token }
  else
    { host := host, port := if port = 443 then 80 else port, secure := false,
      kind := ChannelKind.insecure, with_token := false }

/-- Configuration fields consumed by `__init__` and
`_initialize_dispatcher` (client.py lines 50-98 and 261-321). -/
structure InitConfig where
  remote_compute_context : Bool
  checksum : Option String
  trainer : Bool
  validator : Bool
deriving DecidableEq, Repr

/-- Outcomes of the package runtime consulted by
`_initialize_dispatcher`: whether the download eventually returned a
package, and whether `pr.validate(checksum)` accepted it. -/
structure PackageEnv where
  download_ok : Bool
  checksum_valid : Bool
deriving DecidableEq, Repr

/-- Result flags of client initialization: the error flag and which
worker threads `_subscribe_to_combiner` (client.py lines 237-259)
started. -/
structure InitResult where
  error_state : Bool
  heartbeat_started : Bool
  update_listener_started : Bool
  validation_listener_started : Bool
  pipeline_started : Bool
  attached : Bool
deriving DecidableEq, Repr

/-- Error-state outcome of `_initialize_dispatcher` (client.py lines
261-321): with a remote compute context, a downloaded package, and a
configured checksum that fails validation, `error_state` is set to True
(lines 297-301); every other path leaves it False. -/
def dispatcher_error_state (cfg : InitConfig) (pkg : PackageEnv) : Bool :=
  if cfg.remote_compute_context then
    if pkg.download_ok then
      match cfg.checksum with
      | none => false
      | some _ => if pkg.checksum_valid then false else true
    else false
  else false

/-- The tail of `Client.__init__` (client.py lines 89-98): after
`_initialize_dispatcher` returns — whatever `error_state` it set — the
constructor unconditionally proceeds to `_initialize_helper` and
`_subscribe_to_combiner`, which starts the heartbeat thread, the
update/validation listener threads per the trainer/validator flags, and
the task pipeline thread, and sets `_attached = True`. -/
def client_init (cfg : InitConfig) (pkg : PackageEnv) : InitResult :=
  { error_state := dispatcher_error_state cfg pkg,
    heartbeat_started := true,
    update_listener_started := cfg.trainer,
    validation_listener_started := cfg.validator,
    pipeline_started := true,
    attached := true }

/-- The `error_state` check of `Client.run` (client.py lines 719-720):
the run loop returns exactly when `error_state` is true. -/
def run_loop_exits (error_state : Bool) : Bool := error_state

/-- Sender roles of a combiner request (fedn.WORKER / fedn.COMBINER). -/
inductive Role where
  | WORKER : Role
  | COMBINER : Role
  | OTHER : Role
deriving DecidableEq, Repr

/-- Fields of an incoming request relevant to the listeners. -/
structure TaskRequest where
  sender_role : Role
  model_id : String
  correlation_id : String
deriving DecidableEq, Repr

/-- Status kinds the client publishes (fedn.StatusType). -/
inductive StatusType where
  | MODEL_UPDATE_REQUEST : StatusType
  | MODEL_VALIDATION_REQUEST : StatusType
  | MODEL_UPDATE : StatusType
  | MODEL_VALIDATION : StatusType
  | INFERENCE : StatusType
deriving DecidableEq, Repr

/-- Tags of task envelopes placed in the inbox queue. -/
inductive TaskType where
  | train : TaskType
  | validate : TaskType
deriving DecidableEq, Repr

/-- Per-request body of `_listen_to_model_update_request_stream`
(client.py lines 407-413): only when the sender role is COMBINER does
the client send a MODEL_UPDATE_REQUEST status and enqueue a train
envelope. Returns the enqueued envelopes and the emitted status kinds. -/
def handle_update_stream_request (req : TaskRequest) :
    List (TaskType × TaskRequest) × List StatusType :=
  if req.sender_role = Role.COMBINER then
    ([(TaskType.train, req)], [StatusType.MODEL_UPDATE_REQUEST])
  else ([], [])

/-- Per-request body of `_listen_to_model_validation_request_stream`
(client.py lines 441-446): every received request — with no check of the
sender role — triggers a MODEL_VALIDATION_REQUEST status and a validate
envelope in the inbox. -/
def handle_validation_stream_request (req : TaskRequest) :
    List (TaskType × TaskRequest) × List StatusType :=
  ([(TaskType.validate, req)], [StatusType.MODEL_VALIDATION_REQUEST])

/-- States of the discovery SDK connector (connect.py lines 6-9). -/
inductive DiscoveryState where
  | Disconnected : DiscoveryState
  | Connected : DiscoveryState
  | Error : DiscoveryState
deriving DecidableEq, Repr

/-- The HTTP-status success test appearing in
`DiscoveryCombinerConnect.connect` (connect.py line 45) and in
`update_status` (line 61): `status_code >= 200 or status_code < 204`. -/
def post_success_test (status_code : Int) : Bool :=
  decide (status_code ≥ 200) || decide (status_code < 204)

/-- `DiscoveryCombinerConnect.connect` (connect.py lines 34-52) as a
function of the GET and POST response status codes: a 200 GET yields
Connected directly; otherwise the client POSTs a registration and applies
the success test to the POST status code. -/
def connect_register (get_code post_code : Int) : DiscoveryState :=
  if get_code ≠ 200 then
    if post_success_test post_code then DiscoveryState.Connected
    else DiscoveryState.Disconnected
  else DiscoveryState.Connected

/-- The state assignment after the PATCH in
`DiscoveryCombinerConnect.update_status` (connect.py lines 61-64). -/
def update_status_patch_state (status_code : Int) : DiscoveryState :=
  if post_success_test status_code then DiscoveryState.Connected
  else DiscoveryState.Disconnected

/-
Theorems.
-/

lemma post_success_test_eq_true (s : Int) : post_success_test s = true := by
  unfold post_success_test
  simp only [Bool.or_eq_true, decide_eq_true_eq]
  omega

/-- Claim C10: for every integer HTTP status code s, the success test
`s >= 200 or s < 204` used after connect's registration POST and after
update_status's PATCH evaluates to true, so both operations set the state
to Connected at that branch for every possible response status code. -/
theorem C10_success_test_tautology (s get_code post_code : Int) :
    post_success_test s = true ∧
    update_status_patch_state s = DiscoveryState.Connected ∧
    connect_register get_code post_code = DiscoveryState.Connected := by
  refine ⟨post_success_test_eq_true s, ?_, ?_⟩
  · simp [update_status_patch_state, post_success_test_eq_true]
  · unfold connect_register
    by_cases hg : get_code ≠ 200 <;>
      simp [hg, post_success_test_eq_true]

/-- Claim C4: one heartbeat iteration resets the consecutive-missed
counter to 0 on success and increments it by exactly 1 on failure; the
failure step detaches (attached false and channel newly closed) exactly
when the incremented counter strictly exceeds the threshold; and with
threshold 3, starting attached with counter 0, three consecutive failures
leave the client attached with the channel open while the fourth failure
detaches and closes the channel once. -/
theorem C4_heartbeat_counter (threshold : Nat) (s : ConnState) :
    (heartbeat_step threshold true s).missed_heartbeat = 0 ∧
    (heartbeat_step threshold false s).missed_heartbeat = s.missed_heartbeat + 1 ∧
    (((heartbeat_step threshold false s).attached = false ∧
      (heartbeat_step threshold false s).close_count = s.close_count + 1) ↔
        s.missed_heartbeat + 1 > threshold) ∧
    ((heartbeat_step 3 false)^[3]
        { missed_heartbeat := 0, attached := true, close_count := 0 }).attached = true ∧
    ((heartbeat_step 3 false)^[3]
        { missed_heartbeat := 0, attached := true, close_count := 0 }).close_count = 0 ∧
    ((heartbeat_step 3 false)^[4]
        { missed_heartbeat := 0, attached := true, close_count := 0 }).attached = false ∧
    ((heartbeat_step 3 false)^[4]
        { missed_heartbeat := 0, attached := true, close_count := 0 }).close_count = 1 := by
  refine ⟨?_, ?_, ?_, ?_, ?_, ?_, ?_⟩
  · simp [heartbeat_step]
  · by_cases h : s.missed_heartbeat + 1 > threshold <;>
      simp [heartbeat_step, handle_combiner_failure, detach_client, h]
  · by_cases h : s.missed_heartbeat + 1 > threshold <;>
      simp [heartbeat_step, handle_combiner_failure, detach_client, h]
  · decide
  · decide
  · decide
  · decide

/-- Witness for C4 at threshold 3 and a concrete state. -/
theorem C4_heartbeat_counter_witness :
    (heartbeat_step 3 true
      { missed_heartbeat := 2, attached := true, close_count := 0 }).missed_heartbeat = 0 :=
  (C4_heartbeat_counter 3
    { missed_heartbeat := 2, attached := true, close_count := 0 }).1

/-- Counterexample to claim C7: invoking `_detach` twice calls
`channel.close()` twice — the second detach is not a no-op with respect
to the channel, so the channel is not closed exactly once. -/
theorem C7_detach_counterexample :
    (detach_client (detach_client
      { missed_heartbeat := 0, attached := true, close_count := 0 })).close_count = 2 ∧
    (detach_client (detach_client
      { missed_heartbeat := 0, attached := true, close_count := 0 })).close_count ≠ 1 ∧
    (detach_client
      { missed_heartbeat := 0, attached := true, close_count := 0 }).close_count = 1 := by
  decide

/-- Claim C7 amended: detach is idempotent with respect to the `attached`
flag — it is false after any positive number of detach invocations — but
every invocation calls `channel.close()` again: n invocations increase
the close count by exactly n. -/
theorem C7_detach_amended (s : ConnState) (n : Nat) :
    (detach_client s).attached = false ∧
    (detach_client^[n + 1] s).attached = false ∧
    (detach_client^[n] s).close_count = s.close_count + n := by
  refine ⟨rfl, ?_, ?_⟩
  · rw [Function.iterate_succ_apply']
    rfl
  · induction n with
    | zero => rfl
    | succ k ih =>
      rw [Function.iterate_succ_apply']
      simp [detach_client, ih]
      omega

/-- Counterexample to claim C9: on the validation-request stream a
request whose sender role is WORKER (not COMBINER) is nevertheless
enqueued as a validate envelope. -/
theorem C9_enqueue_counterexample :
    (handle_validation_stream_request
      { sender_role := Role.WORKER, model_id := "m", correlation_id := "c" }).1 =
      [(TaskType.validate,
        { sender_role := Role.WORKER, model_id := "m", correlation_id := "c" })] ∧
    (handle_validation_stream_request
      { sender_role := Role.WORKER, model_id := "m", correlation_id := "c" }).1 ≠ [] := by
  decide

/-- Claim C9 amended: on the update stream a request is enqueued (as a
train envelope, with a MODEL_UPDATE_REQUEST status) if and only if the
sender role is COMBINER; on the validation stream every received request
is enqueued as a validate envelope with a MODEL_VALIDATION_REQUEST
status, regardless of the sender role. -/
theorem C9_enqueue_amended (req : TaskRequest) :
    handle_update_stream_request req =
      (if req.sender_role = Role.COMBINER then [(TaskType.train, req)] else [],
       if req.sender_role = Role.COMBINER then [StatusType.MODEL_UPDATE_REQUEST] else []) ∧
    ((handle_update_stream_request req).1 ≠ [] ↔ req.sender_role = Role.COMBINER) ∧
    handle_validation_stream_request req =
      ([(TaskType.validate, req)], [StatusType.MODEL_VALIDATION_REQUEST]) := by
  by_cases h : req.sender_role = Role.COMBINER <;>
    simp [handle_update_stream_request, handle_validation_stream_request, h]

/-- Witness for C9 amended at a concrete COMBINER-sent request. -/
theorem C9_enqueue_amended_witness :
    handle_validation_stream_request
      { sender_role := Role.COMBINER, model_id := "m2", correlation_id := "c2" } =
      ([(TaskType.validate,
         { sender_role := Role.COMBINER, model_id := "m2", correlation_id := "c2" })],
       [StatusType.MODEL_VALIDATION_REQUEST]) :=
  (C9_enqueue_amended
    { sender_role := Role.COMBINER, model_id := "m2", correlation_id := "c2" }).2.2

/-- Counterexample to claim C6: with fqdn set but no assignment
certificate, no environment root certificate, and the secure flag false,
the channel is insecure and the port is rewritten to 80, not 443/TLS. -/
theorem C6_fqdn_counterexample :
    (connect_channel
      { host := "h", port := 12080, fqdn := some "combiner.example", certificate := none }
      { secure := false, token := none } none).secure = false ∧
    (connect_channel
      { host := "h", port := 12080, fqdn := some "combiner.example", certificate := none }
      { secure := false, token := none } none).port = 80 := by
  decide

/-- Claim C6 amended: when fqdn is set the target host is the fqdn and
the nominal port is 443; the channel is built secure on port 443 when
the assignment carries a truthy certificate, the environment provides a
root certificate, or the secure flag is set; when none of these holds
the channel is insecure and the port is rewritten from 443 to 80. -/
theorem C6_fqdn_amended (cc : CombinerConfig) (cfg : ClientConfig)
    (env_cert : Option String) (f : String) (h : cc.fqdn = some f) :
    (connect_channel cc cfg env_cert).host = f ∧
    ((py_truthy cc.certificate = true ∨ py_truthy env_cert = true ∨ cfg.secure = true) →
      (connect_channel cc cfg env_cert).port = 443 ∧
      (connect_channel cc cfg env_cert).secure = true) ∧
    ((py_truthy cc.certificate = false ∧ py_truthy env_cert = false ∧ cfg.secure = false) →
      (connect_channel cc cfg env_cert).port = 80 ∧
      (connect_channel cc cfg env_cert).secure = false) := by
  cases hc : py_truthy cc.certificate <;>
    cases he : py_truthy env_cert <;>
      cases hs : cfg.secure <;>
        simp_all [connect_channel, h]

/-- Witness for C6 amended at a concrete assignment with a certificate. -/
theorem C6_fqdn_amended_witness :
    (connect_channel
      { host := "h", port := 12080, fqdn := some "combiner.example",
        certificate := some "cert" }
      { secure := false, token := none } none).host = "combiner.example" :=
  (C6_fqdn_amended
    { host := "h", port := 12080, fqdn := some "combiner.example",
      certificate := some "cert" }
    { secure := false, token := none } none "combiner.example" rfl).1

/-- Counterexample to claim C8: with a remote compute context, a
downloaded package, a configured checksum and a failed validation,
`error_state` becomes true but initialization still starts the
heartbeat, listener and pipeline workers — the worker does not exit
without subscribing. -/
theorem C8_checksum_counterexample :
    (client_init
      { remote_compute_context := true, checksum := some "abcd",
        trainer := true, validator := true }
      { download_ok := true, checksum_valid := false }).error_state = true ∧
    (client_init
      { remote_compute_context := true, checksum := some "abcd",
        trainer := true, validator := true }
      { download_ok := true, checksum_valid := false }).heartbeat_started = true ∧
    (client_init
      { remote_compute_context := true, checksum := some "abcd",
        trainer := true, validator := true }
      { download_ok := true, checksum_valid := false }).update_listener_started = true ∧
    (client_init
      { remote_compute_context := true, checksum := some "abcd",
        trainer := true, validator := true }
      { download_ok := true, checksum_valid := false }).pipeline_started = true := by
  decide

/-- Claim C8 amended: a checksum mismatch on the downloaded package sets
`error_state` to true and makes the run loop exit, but the constructor
still subscribes: the heartbeat and pipeline threads are started, and the
listener threads are started according to the trainer/validator flags. -/
theorem C8_checksum_amended (cfg : InitConfig) (pkg : PackageEnv) (c : String)
    (h1 : cfg.remote_compute_context = true) (h2 : pkg.download_ok = true)
    (h3 : cfg.checksum = some c) (h4 : pkg.checksum_valid = false) :
    (client_init cfg pkg).error_state = true ∧
    run_loop_exits (client_init cfg pkg).error_state = true ∧
    (client_init cfg pkg).heartbeat_started = true ∧
    (client_init cfg pkg).pipeline_started = true ∧
    (client_init cfg pkg).update_listener_started = cfg.trainer ∧
    (client_init cfg pkg).validation_listener_started = cfg.validator ∧
    (client_init cfg pkg).attached = true := by
  simp [client_init, dispatcher_error_state, run_loop_exits, h1, h2, h3, h4]

/-- Witness for C8 amended at a concrete mismatching configuration. -/
theorem C8_checksum_amended_witness :
    (client_init
      { remote_compute_context := true, checksum := some "abcd",
        trainer := false, validator := true }
      { download_ok := true, checksum_valid := false }).error_state = true :=
  (C8_checksum_amended
    { remote_compute_context := true, checksum := some "abcd",
      trainer := false, validator := true }
    { download_ok := true, checksum_valid := false } "abcd" rfl rfl rfl rfl).1

/-- Claim C1 (code bug evidence): on a validation task whose fetch step
raises, `_process_validation_request` re-raises instead of returning
None — the state stays `validating` and the exception propagates out of
the `process_request` task loop, contradicting the documented
return-None-on-failure behavior. -/
theorem C1_validation_exception_propagates :
    process_validation_request
      { fetch_model := Except.error "boom", write_input := Except.ok (),
        run_command := Except.ok (), read_metrics := Except.ok [],
        unlink_files := Except.ok () } =
      (ClientState.validating, Except.error "boom") ∧
    process_request_validate
      { fetch_model := Except.error "boom", write_input := Except.ok (),
        run_command := Except.ok (), read_metrics := Except.ok [],
        unlink_files := Except.ok () } = Except.error "boom" := by
  constructor <;> rfl

lemma trainAttempt_ok_all_steps (env : TrainEnv) :
    (∃ p, trainAttempt env = Except.ok p) →
      isErr env.fetch_model = false ∧ isErr env.write_input = false ∧
      isErr env.run_command = false ∧ isErr env.read_output = false ∧
      isErr env.upload_model = false ∧ isErr env.read_metadata = false ∧
      isErr env.unlink_files = false := by
  obtain ⟨f, ft, wi, rc, et, ro, up, ut, nid, rm, ul⟩ := env
  cases f <;> cases wi <;> cases rc <;> cases ro <;> cases up <;> cases rm <;> cases ul <;>
    simp [trainAttempt, isErr]

/-- Claim C5: for every train task in which one of the processing steps
(fetch, write temp input, execute, read output, upload, read sidecar
metadata, unlink) raises, `_process_training_request` returns a null
updated model id with meta = [status: failed, error: message] and idle
state, and the train branch of `process_request` then emits a WARNING
status, publishes no SendModelUpdate, and leaves the state idle. -/
theorem C5_train_failure (env : TrainEnv) (pt : Nat) (cfg : String)
    (h : isErr env.fetch_model = true ∨ isErr env.write_input = true ∨
         isErr env.run_command = true ∨ isErr env.read_output = true ∨
         isErr env.upload_model = true ∨ isErr env.read_metadata = true ∨
         isErr env.unlink_files = true) :
    ∃ msg,
      process_training_request env =
        (none, [("status", MetaVal.str "failed"), ("error", MetaVal.str msg)],
          ClientState.idle) ∧
      (process_request_train env pt cfg).updated_model_id = none ∧
      (process_request_train env pt cfg).published_update = false ∧
      (process_request_train env pt cfg).warning_emitted = true ∧
      (process_request_train env pt cfg).state = ClientState.idle := by
  cases hA : trainAttempt env with
  | error msg =>
    refine ⟨msg, ?_, ?_, ?_, ?_, ?_⟩ <;>
      simp [process_training_request, process_request_train, hA]
  | ok p =>
    exfalso
    have hsteps := trainAttempt_ok_all_steps env ⟨p, hA⟩
    rcases h with h | h | h | h | h | h | h <;> simp_all

/-- Witness for C5 at a concrete environment whose fetch step raises. -/
theorem C5_train_failure_witness :
    ∃ msg,
      process_training_request
        { fetch_model := Except.error "boom", fetch_time := 0,
          write_input := Except.ok (), run_command := Except.ok (),
          exec_time := 0, read_output := Except.ok [],
          upload_model := Except.ok (), upload_time := 0,
          new_model_id := "fresh", read_metadata := Except.ok [],
          unlink_files := Except.ok () } =
        (none, [("status", MetaVal.str "failed"), ("error", MetaVal.str msg)],
          ClientState.idle) ∧
      (process_request_train
        { fetch_model := Except.error "boom", fetch_time := 0,
          write_input := Except.ok (), run_command := Except.ok (),
          exec_time := 0, read_output := Except.ok [],
          upload_model := Except.ok (), upload_time := 0,
          new_model_id := "fresh", read_metadata := Except.ok [],
          unlink_files := Except.ok () } 7 "cfg").updated_model_id = none ∧
      (process_request_train
        { fetch_model := Except.error "boom", fetch_time := 0,
          write_input := Except.ok (), run_command := Except.ok (),
          exec_time := 0, read_output := Except.ok [],
          upload_model := Except.ok (), upload_time := 0,
          new_model_id := "fresh", read_metadata := Except.ok [],
          unlink_files := Except.ok () } 7 "cfg").published_update = false ∧
      (process_request_train
        { fetch_model := Except.error "boom", fetch_time := 0,
          write_input := Except.ok (), run_command := Except.ok (),
          exec_time := 0, read_output := Except.ok [],
          upload_model := Except.ok (), upload_time := 0,
          new_model_id := "fresh", read_metadata := Except.ok [],
          unlink_files := Except.ok () } 7 "cfg").warning_emitted = true ∧
      (process_request_train
        { fetch_model := Except.error "boom", fetch_time := 0,
          write_input := Except.ok (), run_command := Except.ok (),
          exec_time := 0, read_output := Except.ok [],
          upload_model := Except.ok (), upload_time := 0,
          new_model_id := "fresh", read_metadata := Except.ok [],
          unlink_files := Except.ok () } 7 "cfg").state = ClientState.idle :=
  C5_train_failure
    { fetch_model := Except.error "boom", fetch_time := 0,
      write_input := Except.ok (), run_command := Except.ok (),
      exec_time := 0, read_output := Except.ok [],
      upload_model := Except.ok (), upload_time := 0,
      new_model_id := "fresh", read_metadata := Except.ok [],
      unlink_files := Except.ok () } 7 "cfg" (Or.inl rfl)

lemma upload_request_generator_chunks (i : String) :
    ∀ (n : Nat) (mdl : List Nat), mdl.length ≤ n →
      ∃ cs : List (List Nat),
        upload_request_generator i mdl =
          cs.map (fun c => { id := i, status := ModelStatus.IN_PROGRESS, data := c }) ++
            [{ id := i, status := ModelStatus.OK, data := ([] : List Nat) }] ∧
        cs.flatten = mdl ∧
        ∀ c ∈ cs, c.length ≤ CHUNK_SIZE := by
  intro n
  induction n with
  | zero =>
    intro mdl hlen
    have hm : mdl = [] := List.eq_nil_of_length_eq_zero (Nat.le_zero.mp hlen)
    subst hm
    refine ⟨[], ?_, rfl, by simp⟩
    rw [upload_request_generator]
    simp
  | succ k ih =>
    intro mdl hlen
    by_cases hm : mdl = []
    · subst hm
      refine ⟨[], ?_, rfl, by simp⟩
      rw [upload_request_generator]
      simp
    · have h0 : 0 < mdl.length := List.length_pos.mpr hm
      obtain ⟨cs, h1, h2, h3⟩ := ih (mdl.drop CHUNK_SIZE) (by
        simp only [List.length_drop]
        have hcs : 0 < CHUNK_SIZE := by decide
        omega)
      refine ⟨mdl.take CHUNK_SIZE :: cs, ?_, ?_, ?_⟩
      · rw [upload_request_generator]
        simp [hm, h1]
      · rw [List.flatten_cons, h2, List.take_append_drop]
      · intro c hc
        rcases List.mem_cons.mp hc with rfl | hc
        · rw [List.length_take]
          exact Nat.min_le_left _ _
        · exact h3 c hc

/-- Claim C2: for every upload of N bytes, `set_model`'s frame sequence
consists of IN_PROGRESS frames each carrying at most CHUNK_SIZE (1 MiB)
bytes whose data fields concatenate to exactly the original bytes,
followed by exactly one terminal OK frame with empty data after which no
further frame is emitted; for empty input the sequence is the single OK
frame. -/
theorem C2_upload_frames (i : String) (mdl : List Nat) :
    (∀ f ∈ (upload_request_generator i mdl).dropLast,
        f.status = ModelStatus.IN_PROGRESS ∧ f.data.length ≤ CHUNK_SIZE) ∧
    ((upload_request_generator i mdl).dropLast.map ModelRequestMsg.data).flatten = mdl ∧
    (upload_request_generator i mdl).getLast? =
      some { id := i, status := ModelStatus.OK, data := [] } ∧
    (upload_request_generator i mdl).countP
      (fun f => f.status == ModelStatus.OK) = 1 ∧
    (mdl = [] →
      upload_request_generator i mdl =
        [{ id := i, status := ModelStatus.OK, data := [] }]) := by
  obtain ⟨cs, h1, h2, h3⟩ :=
    upload_request_generator_chunks i mdl.length mdl le_rfl
  refine ⟨?_, ?_, ?_, ?_, ?_⟩
  · intro f hf
    rw [h1, List.dropLast_concat] at hf
    obtain ⟨c, hc, rfl⟩ := List.mem_map.mp hf
    exact ⟨rfl, h3 c hc⟩
  · rw [h1, List.dropLast_concat, List.map_map]
    have heq : (ModelRequestMsg.data ∘ fun c : List Nat =>
        ({ id := i, status := ModelStatus.IN_PROGRESS, data := c } : ModelRequestMsg)) =
        fun c => c := rfl
    rw [heq]
    simpa using h2
  · rw [h1, List.getLast?_concat]
  · rw [h1, List.countP_append, List.countP_map]
    have hz : (cs.countP
        ((fun f : ModelRequestMsg => f.status == ModelStatus.OK) ∘
          (fun c => { id := i, status := ModelStatus.IN_PROGRESS, data := c }))) = 0 := by
      apply List.countP_eq_zero.mpr
      intro c _
      simp [Function.comp]
    rw [hz]
    simp
  · intro hm
    subst hm
    rw [upload_request_generator]
    simp

/-- Witness for C2 at the empty model. -/
theorem C2_upload_frames_witness :
    upload_request_generator "m" [] =
      [{ id := "m", status := ModelStatus.OK, data := [] }] :=
  (C2_upload_frames "m" []).2.2.2.2 rfl

lemma get_model_loop_append (pre rest : List ModelRequestMsg) (acc : List Nat)
    (hpre : ∀ f ∈ pre, f.status = ModelStatus.IN_PROGRESS) :
    get_model_loop (pre ++ rest) acc =
      get_model_loop rest (acc ++ (pre.map ModelRequestMsg.data).flatten) := by
  induction pre generalizing acc with
  | nil => simp
  | cons p ps ih =>
    have hp : p.status = ModelStatus.IN_PROGRESS := hpre p (by simp)
    have hrec := ih (acc ++ p.data) (fun f hf => hpre f (by simp [hf]))
    simp only [List.cons_append, get_model_loop, hp, reduceCtorEq, if_true, if_false,
      ite_true, ite_false, List.append_eq]
    rw [hrec]
    simp [List.append_assoc]

/-- Claim C3: for every download stream consisting of IN_PROGRESS frames
followed by a first terminal frame, `get_model` returns the concatenation
of the data of the IN_PROGRESS frames when the terminal status is OK —
without appending the terminal frame's own data — and returns None when
the terminal status is FAILED. -/
theorem C3_get_model (pre post : List ModelRequestMsg) (t : ModelRequestMsg)
    (hpre : ∀ f ∈ pre, f.status = ModelStatus.IN_PROGRESS)
    (ht : t.status = ModelStatus.OK ∨ t.status = ModelStatus.FAILED) :
    get_model (pre ++ t :: post) =
      if t.status = ModelStatus.OK then
        some ((pre.map ModelRequestMsg.data).flatten)
      else none := by
  unfold get_model
  rw [get_model_loop_append pre (t :: post) [] hpre]
  rcases ht with h | h <;>
    simp [get_model_loop, h]

/-- Witness for C3 at a concrete two-frame stream ending in OK whose
terminal frame carries data that is not appended. -/
theorem C3_get_model_witness :
    get_model
      [{ id := "m", status := ModelStatus.IN_PROGRESS, data := [1, 2] },
       { id := "m", status := ModelStatus.OK, data := [9] }] = some [1, 2] := by
  have h := C3_get_model
    [{ id := "m", status := ModelStatus.IN_PROGRESS, data := [1, 2] }] []
    { id := "m", status := ModelStatus.OK, data := [9] }
    (by intro f hf; simp at hf; rw [hf]) (Or.inl rfl)
  simpa using h

end Fedn
